import Mathlib

/-!
# usdKatana: the shared `PxrUsdIn` argument object and its builder

A shallow embedding of `third_party/katana/lib/usdKatana/usdInArgs.h`.

* `double` values are only stored, copied and compared by this header, so the
  embedding is generic in a type `Double` carrying a decidable strict order
  (and a zero, for the builder's `0.0` defaults).
* The USD stage, prim, bounding box and bounding-box cache types belong to the
  USD library and stay type parameters.
* `TfRefPtr` is a nullable handle; `const char *` is a nullable pointer to a
  character buffer that is read up to its first NUL.
-/

namespace UsdKatana

/-! ## Library types used by the header -/

/-- Nullable reference-counted handle (`TfRefPtr<T>`); `none` is the null handle. -/
abbrev TfRefPtr (α : Type) : Type := Option α

/-- Wraps a freshly allocated object in a handle, as `TfCreateRefPtr(new T(...))` does. -/
def TfCreateRefPtr {α : Type} (obj : α) : TfRefPtr α := some obj

/-- Handle to a USD stage (`UsdStageRefPtr`). -/
abbrev UsdStageRefPtr (Stage : Type) : Type := TfRefPtr Stage

/-- The NUL character that terminates a C string. -/
def NUL : Char := Char.ofNat 0

/-- Value of type `const char *`: null (`0`), or a pointer to a character buffer. -/
abbrev CharPtr : Type := Option (List Char)

/-- Buffer returned by `std::string::c_str()`: the characters of the string
followed by a terminating NUL. -/
def c_str (s : String) : CharPtr := some (s.data ++ [NUL])

/-- Result of `std::string::operator=(const char *)`: the characters of the
buffer that come before its first NUL. -/
def assignCString (buf : List Char) : String := String.mk (buf.takeWhile (fun c => c != NUL))

/-- Container `std::set<std::string>`. -/
abbrev StringSet : Type := Finset String

/-- Container `std::map<std::string, std::vector<std::string> >`
(`PxrUsdKatanaUsdInArgs::StringListMap`). -/
abbrev StringListMap : Type := AList (fun _ : String => List String)

/-- Modelled from the spec: the attribute values of the host's `FnAttribute`
library ("nested group/list/scalar data"), which the header only includes.
A group holds named children in order, and its group-inherit flag. -/
inductive Attribute : Type
  | int (value : Int)
  | string (value : String)
  | group (children : List (String × Attribute)) (groupInherit : Bool)

/-- Modelled from the spec: `FnAttribute::GroupAttribute`, a handle that is either
invalid (unset) or refers to a group: its named children and its group-inherit
flag. -/
structure GroupAttribute : Type where
  handle : Option (List (String × Attribute) × Bool)

/-- Modelled from the spec: default construction `GroupAttribute()` of the
`FnAttribute` library, the invalid (unset) handle. -/
def GroupAttribute.default : GroupAttribute := GroupAttribute.mk none

/-- Modelled from the spec: construction `GroupAttribute(groupInherit)` of the
`FnAttribute` library, a valid group without children ("a valid-but-empty
default"). -/
def GroupAttribute.empty (groupInherit : Bool) : GroupAttribute :=
  GroupAttribute.mk (some ([], groupInherit))

/-- Modelled from the spec: validity test `isValid()` of the `FnAttribute`
library. -/
def GroupAttribute.isValid (a : GroupAttribute) : Bool := a.handle.isSome

/-- Modelled from the spec: child count `getNumberOfChildren()` of the
`FnAttribute` library; an invalid handle has none. -/
def GroupAttribute.getNumberOfChildren (a : GroupAttribute) : Nat :=
  match a.handle with
  | none => 0
  | some (children, _) => children.length

/-- Identifier of a worker thread. -/
abbrev ThreadId : Type := Nat

/-- Container `tbb::enumerable_thread_specific<T>` as seen through `local()`:
one slot per thread. -/
abbrev ThreadSpecific (α : Type) : Type := ThreadId → α

/-! ## `PxrUsdKatanaUsdInArgs` -/

/-- Private fields of `PxrUsdKatanaUsdInArgs`, in declaration order. -/
structure PxrUsdKatanaUsdInArgs (Stage Double Cache : Type) : Type where
  _stage : UsdStageRefPtr Stage
  _rootLocation : String
  _isolatePath : String
  _sessionAttr : GroupAttribute
  _ignoreLayerRegex : String
  _currentTime : Double
  _shutterOpen : Double
  _shutterClose : Double
  _motionSampleTimes : List Double
  _defaultMotionPaths : StringSet
  _isMotionBackward : Bool
  _extraAttributesOrNamespaces : StringListMap
  _verbose : Bool
  _bboxCaches : ThreadSpecific (List Cache)
  _errorMessage : String

/-- Handle type `PxrUsdKatanaUsdInArgsRefPtr`. -/
abbrev PxrUsdKatanaUsdInArgsRefPtr (Stage Double Cache : Type) : Type :=
  TfRefPtr (PxrUsdKatanaUsdInArgs Stage Double Cache)

section Construction

variable {Stage Double Cache : Type} [LT Double] [DecidableRel (fun a b : Double => a < b)]

/-- Modelled from the spec: the backward-motion-blur derivation of the
constructor, `sampleTimes.size() > 1 && sampleTimes.front() > sampleTimes.back()`. -/
def motionBackward (sampleTimes : List Double) : Bool :=
  if h : 1 < sampleTimes.length then
    decide (sampleTimes[sampleTimes.length - 1] < sampleTimes[0])
  else
    false

/-- Modelled from the spec: the private constructor
`PxrUsdKatanaUsdInArgs::PxrUsdKatanaUsdInArgs`, declared in the header and
defined outside it. Every argument is stored in its field, the motion-backward
flag is derived from the sample times, the per-thread caches start empty and the
error message is stored only when a (non-null) error string is supplied. -/
def PxrUsdKatanaUsdInArgs.ctor
    (stage : UsdStageRefPtr Stage)
    (rootLocation : String)
    (isolatePath : String)
    (sessionAttr : GroupAttribute)
    (ignoreLayerRegex : String)
    (currentTime : Double)
    (shutterOpen : Double)
    (shutterClose : Double)
    (motionSampleTimes : List Double)
    (defaultMotionPaths : StringSet)
    (extraAttributesOrNamespaces : StringListMap)
    (verbose : Bool)
    (errorMessage : CharPtr) : PxrUsdKatanaUsdInArgs Stage Double Cache :=
  { _stage := stage
    _rootLocation := rootLocation
    _isolatePath := isolatePath
    _sessionAttr := sessionAttr
    _ignoreLayerRegex := ignoreLayerRegex
    _currentTime := currentTime
    _shutterOpen := shutterOpen
    _shutterClose := shutterClose
    _motionSampleTimes := motionSampleTimes
    _defaultMotionPaths := defaultMotionPaths
    _isMotionBackward := motionBackward motionSampleTimes
    _extraAttributesOrNamespaces := extraAttributesOrNamespaces
    _verbose := verbose
    _bboxCaches := fun _ => []
    _errorMessage :=
      match errorMessage with
      | none => ""
      | some buf => assignCString buf }

/-- Factory `PxrUsdKatanaUsdInArgs::New`: allocates a context from the thirteen
arguments, passed on in order, and returns a handle to it. -/
def PxrUsdKatanaUsdInArgs.New
    (stage : UsdStageRefPtr Stage)
    (rootLocation : String)
    (isolatePath : String)
    (sessionAttr : GroupAttribute)
    (ignoreLayerRegex : String)
    (currentTime : Double)
    (shutterOpen : Double)
    (shutterClose : Double)
    (motionSampleTimes : List Double)
    (defaultMotionPaths : StringSet)
    (extraAttributesOrNamespaces : StringListMap)
    (verbose : Bool)
    (errorMessage : CharPtr) : PxrUsdKatanaUsdInArgsRefPtr Stage Double Cache :=
  TfCreateRefPtr (PxrUsdKatanaUsdInArgs.ctor
    stage
    rootLocation
    isolatePath
    sessionAttr
    ignoreLayerRegex
    currentTime
    shutterOpen
    shutterClose
    motionSampleTimes
    defaultMotionPaths
    extraAttributesOrNamespaces
    verbose
    errorMessage)

end Construction

section Accessors

variable {Stage Double Cache : Type}

/-- Accessor `GetStage`. -/
def PxrUsdKatanaUsdInArgs.GetStage (self : PxrUsdKatanaUsdInArgs Stage Double Cache) :
    UsdStageRefPtr Stage :=
  self._stage

/-- Accessor `GetRootLocationPath`. -/
def PxrUsdKatanaUsdInArgs.GetRootLocationPath (self : PxrUsdKatanaUsdInArgs Stage Double Cache) :
    String :=
  self._rootLocation

/-- Accessor `GetIsolatePath`. -/
def PxrUsdKatanaUsdInArgs.GetIsolatePath (self : PxrUsdKatanaUsdInArgs Stage Double Cache) :
    String :=
  self._isolatePath

/-- Accessor `GetSessionAttr`. -/
def PxrUsdKatanaUsdInArgs.GetSessionAttr (self : PxrUsdKatanaUsdInArgs Stage Double Cache) :
    GroupAttribute :=
  self._sessionAttr

/-- Accessor `GetIgnoreLayerRegex`. -/
def PxrUsdKatanaUsdInArgs.GetIgnoreLayerRegex (self : PxrUsdKatanaUsdInArgs Stage Double Cache) :
    String :=
  self._ignoreLayerRegex

/-- Accessor `GetCurrentTime`. -/
def PxrUsdKatanaUsdInArgs.GetCurrentTime (self : PxrUsdKatanaUsdInArgs Stage Double Cache) :
    Double :=
  self._currentTime

/-- Accessor `GetShutterOpen`. -/
def PxrUsdKatanaUsdInArgs.GetShutterOpen (self : PxrUsdKatanaUsdInArgs Stage Double Cache) :
    Double :=
  self._shutterOpen

/-- Accessor `GetShutterClose`. -/
def PxrUsdKatanaUsdInArgs.GetShutterClose (self : PxrUsdKatanaUsdInArgs Stage Double Cache) :
    Double :=
  self._shutterClose

/-- Accessor `GetMotionSampleTimes`. -/
def PxrUsdKatanaUsdInArgs.GetMotionSampleTimes (self : PxrUsdKatanaUsdInArgs Stage Double Cache) :
    List Double :=
  self._motionSampleTimes

/-- Accessor `GetDefaultMotionPaths`. -/
def PxrUsdKatanaUsdInArgs.GetDefaultMotionPaths (self : PxrUsdKatanaUsdInArgs Stage Double Cache) :
    StringSet :=
  self._defaultMotionPaths

/-- Accessor `IsMotionBackward`. -/
def PxrUsdKatanaUsdInArgs.IsMotionBackward (self : PxrUsdKatanaUsdInArgs Stage Double Cache) :
    Bool :=
  self._isMotionBackward

/-- Accessor `GetExtraAttributesOrNamespaces`. -/
def PxrUsdKatanaUsdInArgs.GetExtraAttributesOrNamespaces
    (self : PxrUsdKatanaUsdInArgs Stage Double Cache) : StringListMap :=
  self._extraAttributesOrNamespaces

/-- Accessor `IsVerbose`. -/
def PxrUsdKatanaUsdInArgs.IsVerbose (self : PxrUsdKatanaUsdInArgs Stage Double Cache) : Bool :=
  self._verbose

/-- Accessor `GetBBoxCache`: the calling thread's slot of `_bboxCaches`
(`_bboxCaches.local()`). -/
def PxrUsdKatanaUsdInArgs.GetBBoxCache (self : PxrUsdKatanaUsdInArgs Stage Double Cache)
    (thread : ThreadId) : List Cache :=
  self._bboxCaches thread

/-- Assignment through the reference that `GetBBoxCache` returns: replaces the
calling thread's slot. -/
def PxrUsdKatanaUsdInArgs.storeBBoxCache (self : PxrUsdKatanaUsdInArgs Stage Double Cache)
    (thread : ThreadId) (caches : List Cache) : PxrUsdKatanaUsdInArgs Stage Double Cache :=
  { self with _bboxCaches := Function.update self._bboxCaches thread caches }

/-- Accessor `GetErrorMessage`. -/
def PxrUsdKatanaUsdInArgs.GetErrorMessage (self : PxrUsdKatanaUsdInArgs Stage Double Cache) :
    String :=
  self._errorMessage

end Accessors

/-! ## Bounds computation -/

/-- Modelled from the spec: the bounding-box-cache abstraction of the USD
library. `create currentTime sample` makes the cache for one motion-sample
offset (`none`: no motion sampling), and `computeBound` is "compute bounds for
entity E", which returns the box and the cache with its memo updated. -/
structure BBoxCacheLibrary (Double Cache Prim BBox : Type) : Type where
  create : Double → Option Double → Cache
  computeBound : Cache → Prim → BBox × Cache

/-- Modelled from the spec: the samples a bounds query covers, "one per motion
sample time (or one if no motion sampling is configured)". -/
def boundsSamples {Double : Type} (motionSampleTimes : List Double) : List (Option Double) :=
  if motionSampleTimes.isEmpty then [none] else motionSampleTimes.map some

/-- Modelled from the spec: `ComputeBounds`, declared in the header and defined
outside it. The calling thread takes its own cache sequence from its slot; when
the slot is still empty the sequence is constructed (lazily), one cache per
sample; the query is delegated to each cache of the sequence, and the caches
are kept in the slot. Returns the boxes and the context afterwards. -/
def PxrUsdKatanaUsdInArgs.ComputeBounds {Stage Double Cache Prim BBox : Type}
    (usd : BBoxCacheLibrary Double Cache Prim BBox)
    (self : PxrUsdKatanaUsdInArgs Stage Double Cache) (thread : ThreadId) (prim : Prim) :
    List BBox × PxrUsdKatanaUsdInArgs Stage Double Cache :=
  let held := self.GetBBoxCache thread
  let caches :=
    if held.isEmpty then
      (boundsSamples self._motionSampleTimes).map (usd.create self._currentTime)
    else
      held
  let answers := caches.map (fun cache => usd.computeBound cache prim)
  (answers.map Prod.fst, self.storeBBoxCache thread (answers.map Prod.snd))

/-- One call on a constructed context: each public member function, with the
calling thread where the member uses the per-thread slot. `GetBBoxCache`
returns a mutable reference, so the call carries what the caller assigns
through it, if anything. -/
inductive Call (Cache Prim : Type) : Type
  | ComputeBounds (thread : ThreadId) (prim : Prim)
  | GetRootPrim
  | GetStage
  | GetFileName
  | GetRootLocationPath
  | GetIsolatePath
  | GetSessionAttr
  | GetIgnoreLayerRegex
  | GetCurrentTime
  | GetShutterOpen
  | GetShutterClose
  | GetMotionSampleTimes
  | GetDefaultMotionPaths
  | IsMotionBackward
  | GetExtraAttributesOrNamespaces
  | IsVerbose
  | GetBBoxCache (thread : ThreadId) (assigned : Option (List Cache))
  | GetErrorMessage

/-- The context after one call. The accessors return a field (or a value read
from the stage) and assign nothing. -/
def PxrUsdKatanaUsdInArgs.afterCall {Stage Double Cache Prim BBox : Type}
    (usd : BBoxCacheLibrary Double Cache Prim BBox)
    (self : PxrUsdKatanaUsdInArgs Stage Double Cache) :
    Call Cache Prim → PxrUsdKatanaUsdInArgs Stage Double Cache
  | Call.ComputeBounds thread prim => (self.ComputeBounds usd thread prim).2
  | Call.GetBBoxCache thread (some caches) => self.storeBBoxCache thread caches
  | Call.GetBBoxCache _ none => self
  | Call.GetRootPrim => self
  | Call.GetStage => self
  | Call.GetFileName => self
  | Call.GetRootLocationPath => self
  | Call.GetIsolatePath => self
  | Call.GetSessionAttr => self
  | Call.GetIgnoreLayerRegex => self
  | Call.GetCurrentTime => self
  | Call.GetShutterOpen => self
  | Call.GetShutterClose => self
  | Call.GetMotionSampleTimes => self
  | Call.GetDefaultMotionPaths => self
  | Call.IsMotionBackward => self
  | Call.GetExtraAttributesOrNamespaces => self
  | Call.IsVerbose => self
  | Call.GetErrorMessage => self

/-- The context after a sequence of calls, first call first. -/
def PxrUsdKatanaUsdInArgs.afterCalls {Stage Double Cache Prim BBox : Type}
    (usd : BBoxCacheLibrary Double Cache Prim BBox)
    (self : PxrUsdKatanaUsdInArgs Stage Double Cache) (calls : List (Call Cache Prim)) :
    PxrUsdKatanaUsdInArgs Stage Double Cache :=
  calls.foldl (fun ctx call => ctx.afterCall usd call) self

/-! ## `ArgsBuilder` -/

/-- Fields of `ArgsBuilder`, in declaration order. -/
structure ArgsBuilder (Stage Double : Type) : Type where
  stage : UsdStageRefPtr Stage
  rootLocation : String
  isolatePath : String
  sessionAttr : GroupAttribute
  ignoreLayerRegex : String
  currentTime : Double
  shutterOpen : Double
  shutterClose : Double
  motionSampleTimes : List Double
  defaultMotionPaths : StringSet
  extraAttributesOrNamespaces : StringListMap
  verbose : Bool
  errorMessage : CharPtr

section Builder

variable {Stage Double : Type}

/-- Default constructor `ArgsBuilder::ArgsBuilder()`: the three times are `0.0`, `verbose` is
false and `errorMessage` is null; every other member is default-constructed. -/
def ArgsBuilder.ctor [Zero Double] : ArgsBuilder Stage Double :=
  { stage := none
    rootLocation := ""
    isolatePath := ""
    sessionAttr := GroupAttribute.default
    ignoreLayerRegex := ""
    currentTime := 0
    shutterOpen := 0
    shutterClose := 0
    motionSampleTimes := []
    defaultMotionPaths := ∅
    extraAttributesOrNamespaces := ∅
    verbose := false
    errorMessage := none }

variable [LT Double] [DecidableRel (fun a b : Double => a < b)]

/-- Member `ArgsBuilder::build`: passes the staged fields to `New`, in order,
with `GroupAttribute(true)` in place of an invalid session attribute. -/
def ArgsBuilder.build (self : ArgsBuilder Stage Double) (Cache : Type) :
    PxrUsdKatanaUsdInArgsRefPtr Stage Double Cache :=
  PxrUsdKatanaUsdInArgs.New
    self.stage
    self.rootLocation
    self.isolatePath
    (if self.sessionAttr.isValid then self.sessionAttr else GroupAttribute.empty true)
    self.ignoreLayerRegex
    self.currentTime
    self.shutterOpen
    self.shutterClose
    self.motionSampleTimes
    self.defaultMotionPaths
    self.extraAttributesOrNamespaces
    self.verbose
    self.errorMessage

/-- Member `ArgsBuilder::buildWithError`: points `errorMessage` at the
characters of `errorStr`, then builds. Returns the context handle and the
builder afterwards. -/
def ArgsBuilder.buildWithError (self : ArgsBuilder Stage Double) (Cache : Type)
    (errorStr : String) : PxrUsdKatanaUsdInArgsRefPtr Stage Double Cache × ArgsBuilder Stage Double :=
  let staged : ArgsBuilder Stage Double := { self with errorMessage := c_str errorStr }
  (staged.build Cache, staged)

end Builder

/-! ## Example input -/

/-- A session attribute in the documented format: a `variants` group and an
`activations` group, keyed by delimiter-encoded location paths. -/
def exampleSessionAttr : GroupAttribute :=
  GroupAttribute.mk (some (
    [ ("variants", Attribute.group
        [ ("/root/world/geo/chair", Attribute.group
            [ ("modelingVariant", Attribute.string "tall") ] true) ] true),
      ("activations", Attribute.group
        [ ("/root/world/geo/table", Attribute.int 0),
          ("/root/world/geo/lamp", Attribute.int 1) ] true) ],
    true))

section Lemmas

variable {Double : Type} [LT Double] [DecidableRel (fun a b : Double => a < b)]

lemma motionBackward_eq_true_iff (s : List Double) :
    motionBackward s = true ↔
      ∃ first last, s.head? = some first ∧ s.getLast? = some last ∧
        2 ≤ s.length ∧ last < first := by
  unfold motionBackward
  split
  · rename_i h
    have h0 : 0 < s.length := by omega
    have hl : s.length - 1 < s.length := by omega
    have e1 : s.head? = some s[0] := by
      rw [List.head?_eq_getElem?, List.getElem?_eq_getElem h0]
    have e2 : s.getLast? = some s[s.length - 1] := by
      rw [List.getLast?_eq_getElem?, List.getElem?_eq_getElem hl]
    constructor
    · intro hd
      exact ⟨_, _, e1, e2, h, of_decide_eq_true hd⟩
    · rintro ⟨a, b, ha, hb, -, hlt⟩
      rw [e1] at ha
      rw [e2] at hb
      cases ha
      cases hb
      exact decide_eq_true hlt
  · rename_i h
    constructor
    · intro hd
      cases hd
    · rintro ⟨a, b, -, -, h2, -⟩
      omega

lemma takeWhile_append_stop {α : Type} (p : α → Bool) (xs : List α) (x : α) (ys : List α)
    (hxs : ∀ a ∈ xs, p a = true) (hx : p x = false) :
    (xs ++ x :: ys).takeWhile p = xs := by
  induction xs with
  | nil => simp [List.takeWhile, hx]
  | cons a as ih =>
    have ha : p a = true := hxs a (List.mem_cons_self a as)
    have has : ∀ b ∈ as, p b = true := fun b hb => hxs b (List.mem_cons_of_mem a hb)
    simp [List.takeWhile, ha, ih has]

lemma assignCString_c_str_buffer (e : String) (h : NUL ∉ e.data) :
    assignCString (e.data ++ [NUL]) = e := by
  unfold assignCString
  rw [takeWhile_append_stop]
  · intro a ha
    have : a ≠ NUL := fun hEq => h (hEq ▸ ha)
    simpa using this
  · simp

end Lemmas

section FrameLemmas

variable {Double : Type}

lemma afterCall_eq_with_caches {Stage Cache Prim BBox : Type}
    (usd : BBoxCacheLibrary Double Cache Prim BBox)
    (self : PxrUsdKatanaUsdInArgs Stage Double Cache) (call : Call Cache Prim) :
    ∃ caches, self.afterCall usd call = { self with _bboxCaches := caches } := by
  cases call with
  | ComputeBounds thread prim => exact ⟨_, rfl⟩
  | GetBBoxCache thread assigned =>
    cases assigned with
    | none => exact ⟨self._bboxCaches, rfl⟩
    | some caches => exact ⟨_, rfl⟩
  | _ => exact ⟨self._bboxCaches, rfl⟩

lemma afterCalls_eq_with_caches {Stage Cache Prim BBox : Type}
    (usd : BBoxCacheLibrary Double Cache Prim BBox)
    (calls : List (Call Cache Prim)) (self : PxrUsdKatanaUsdInArgs Stage Double Cache) :
    ∃ caches, self.afterCalls usd calls = { self with _bboxCaches := caches } := by
  induction calls generalizing self with
  | nil => exact ⟨self._bboxCaches, rfl⟩
  | cons call rest ih =>
    obtain ⟨c1, h1⟩ := afterCall_eq_with_caches usd self call
    obtain ⟨c2, h2⟩ := ih (self.afterCall usd call)
    refine ⟨c2, ?_⟩
    have hstep : self.afterCalls usd (call :: rest) = (self.afterCall usd call).afterCalls usd rest :=
      rfl
    rw [hstep, h2, h1]

end FrameLemmas

/-! ## The derived motion-backward flag -/

/-- C1: for every motion-sample sequence `s` handed to `New`, directly or through
`ArgsBuilder::build`, `IsMotionBackward()` of the resulting context is true
exactly when `s` has at least two entries and its first entry is strictly
greater than its last one. It is false for the empty sequence and for every
one-entry sequence, and true for `[0.2, -0.2]`. -/
theorem isMotionBackward_iff_first_gt_last {Stage Double Cache : Type} [LT Double]
    [DecidableRel (fun a b : Double => a < b)]
    (stage : UsdStageRefPtr Stage) (rootLocation isolatePath : String)
    (sessionAttr : GroupAttribute) (ignoreLayerRegex : String)
    (currentTime shutterOpen shutterClose : Double) (s : List Double)
    (defaultMotionPaths : StringSet) (extraAttributesOrNamespaces : StringListMap)
    (verbose : Bool) (errorMessage : CharPtr) (b : ArgsBuilder Stage Double) (x : Double) :
    (∃ c : PxrUsdKatanaUsdInArgs Stage Double Cache,
        PxrUsdKatanaUsdInArgs.New stage rootLocation isolatePath sessionAttr ignoreLayerRegex
          currentTime shutterOpen shutterClose s defaultMotionPaths
          extraAttributesOrNamespaces verbose errorMessage = some c ∧
        (c.IsMotionBackward = true ↔
          ∃ first last, s.head? = some first ∧ s.getLast? = some last ∧
            2 ≤ s.length ∧ last < first)) ∧
    (∃ c : PxrUsdKatanaUsdInArgs Stage Double Cache,
        b.build Cache = some c ∧
        (c.IsMotionBackward = true ↔
          ∃ first last, b.motionSampleTimes.head? = some first ∧
            b.motionSampleTimes.getLast? = some last ∧
            2 ≤ b.motionSampleTimes.length ∧ last < first)) ∧
    (∃ c : PxrUsdKatanaUsdInArgs Stage Double Cache,
        PxrUsdKatanaUsdInArgs.New stage rootLocation isolatePath sessionAttr ignoreLayerRegex
          currentTime shutterOpen shutterClose [] defaultMotionPaths
          extraAttributesOrNamespaces verbose errorMessage = some c ∧
        c.IsMotionBackward = false) ∧
    (∃ c : PxrUsdKatanaUsdInArgs Stage Double Cache,
        PxrUsdKatanaUsdInArgs.New stage rootLocation isolatePath sessionAttr ignoreLayerRegex
          currentTime shutterOpen shutterClose [x] defaultMotionPaths
          extraAttributesOrNamespaces verbose errorMessage = some c ∧
        c.IsMotionBackward = false) ∧
    (∃ c : PxrUsdKatanaUsdInArgs Stage ℚ Cache,
        PxrUsdKatanaUsdInArgs.New stage rootLocation isolatePath sessionAttr ignoreLayerRegex
          0 0 0 [0.2, -0.2] defaultMotionPaths
          extraAttributesOrNamespaces verbose errorMessage = some c ∧
        c.IsMotionBackward = true) := by
  refine ⟨⟨_, rfl, ?_⟩, ⟨_, rfl, ?_⟩, ⟨_, rfl, rfl⟩, ⟨_, rfl, rfl⟩, ⟨_, rfl, ?_⟩⟩
  · exact motionBackward_eq_true_iff s
  · exact motionBackward_eq_true_iff b.motionSampleTimes
  · show motionBackward [(0.2 : ℚ), -0.2] = true
    rw [motionBackward_eq_true_iff]
    refine ⟨0.2, -0.2, rfl, rfl, ?_, ?_⟩
    · simp
    · norm_num

/-! ## Error message -/

/-- C2 as stated fails: `buildWithError` hands the error string over as a
`const char *`, so for the three-character string `a`, NUL, `b` the context
reports only `a`. -/
theorem buildWithError_embedded_NUL_truncated :
    Option.map PxrUsdKatanaUsdInArgs.GetErrorMessage
        ((ArgsBuilder.ctor : ArgsBuilder Unit Int).buildWithError Unit
          (String.mk ['a', NUL, 'b'])).1 = some "a" ∧
      "a" ≠ String.mk ['a', NUL, 'b'] := by
  constructor
  · decide
  · decide

/-- C2, amended: for every builder state and every error string `e` that holds no
NUL character, `buildWithError(e)` returns a non-null context whose
`GetErrorMessage()` is `e`, character for character. -/
theorem buildWithError_message_verbatim {Stage Double : Type} [LT Double]
    [DecidableRel (fun a b : Double => a < b)] (Cache : Type)
    (b : ArgsBuilder Stage Double) (e : String) (h : NUL ∉ e.data) :
    ∃ c : PxrUsdKatanaUsdInArgs Stage Double Cache,
      (b.buildWithError Cache e).1 = some c ∧ c.GetErrorMessage = e :=
  ⟨_, rfl, assignCString_c_str_buffer e h⟩

/-- Witness for C2: the amended statement at the default builder and the error
string `bad path`. -/
theorem buildWithError_message_verbatim_witness :
    NUL ∉ "bad path".data ∧
      ∃ c : PxrUsdKatanaUsdInArgs Unit Int Unit,
        ((ArgsBuilder.ctor : ArgsBuilder Unit Int).buildWithError Unit "bad path").1 = some c ∧
          c.GetErrorMessage = "bad path" :=
  ⟨by decide, buildWithError_message_verbatim Unit ArgsBuilder.ctor "bad path" (by decide)⟩

/-- C7: a context constructed with a null error string has the empty string as
its `GetErrorMessage()`; so has every context that `build()` returns for a
builder whose `errorMessage` is still null; and `New` yields a context
(a non-null handle) with or without an error string. -/
theorem errorMessage_empty_without_error {Stage Double Cache : Type} [LT Double]
    [DecidableRel (fun a b : Double => a < b)]
    (stage : UsdStageRefPtr Stage) (rootLocation isolatePath : String)
    (sessionAttr : GroupAttribute) (ignoreLayerRegex : String)
    (currentTime shutterOpen shutterClose : Double) (motionSampleTimes : List Double)
    (defaultMotionPaths : StringSet) (extraAttributesOrNamespaces : StringListMap)
    (verbose : Bool) (errorMessage : CharPtr) (b : ArgsBuilder Stage Double)
    (h : b.errorMessage = none) :
    (∃ c : PxrUsdKatanaUsdInArgs Stage Double Cache,
        PxrUsdKatanaUsdInArgs.New stage rootLocation isolatePath sessionAttr ignoreLayerRegex
          currentTime shutterOpen shutterClose motionSampleTimes defaultMotionPaths
          extraAttributesOrNamespaces verbose none = some c ∧
        c.GetErrorMessage = "") ∧
    (∃ c : PxrUsdKatanaUsdInArgs Stage Double Cache,
        b.build Cache = some c ∧ c.GetErrorMessage = "") ∧
    (∃ c : PxrUsdKatanaUsdInArgs Stage Double Cache,
        PxrUsdKatanaUsdInArgs.New stage rootLocation isolatePath sessionAttr ignoreLayerRegex
          currentTime shutterOpen shutterClose motionSampleTimes defaultMotionPaths
          extraAttributesOrNamespaces verbose errorMessage = some c) := by
  refine ⟨⟨_, rfl, rfl⟩, ⟨_, rfl, ?_⟩, ⟨_, rfl⟩⟩
  show (match b.errorMessage with
    | none => ""
    | some buf => assignCString buf) = ""
  rw [h]

/-- Witness for C7: the default-constructed builder, whose error field was never
set, with an error string passed to `New` in the last part. -/
theorem errorMessage_empty_without_error_witness :
    (ArgsBuilder.ctor : ArgsBuilder Unit Int).errorMessage = none ∧
      ((∃ c : PxrUsdKatanaUsdInArgs Unit Int Unit,
          PxrUsdKatanaUsdInArgs.New none "/root/world" "" (GroupAttribute.empty true) ""
            (1 : Int) 0 0 [] ∅ ∅ false none = some c ∧
          c.GetErrorMessage = "") ∧
      (∃ c : PxrUsdKatanaUsdInArgs Unit Int Unit,
          (ArgsBuilder.ctor : ArgsBuilder Unit Int).build Unit = some c ∧
            c.GetErrorMessage = "") ∧
      (∃ c : PxrUsdKatanaUsdInArgs Unit Int Unit,
          PxrUsdKatanaUsdInArgs.New none "/root/world" "" (GroupAttribute.empty true) ""
            (1 : Int) 0 0 [] ∅ ∅ false (c_str "no stage") = some c)) :=
  ⟨rfl, errorMessage_empty_without_error none "/root/world" "" (GroupAttribute.empty true) ""
    (1 : Int) 0 0 [] ∅ ∅ false (c_str "no stage") ArgsBuilder.ctor rfl⟩

/-! ## Session attribute -/

/-- C3: when the staged session attribute is invalid (none was staged), the
context returned by `build()` has as its `GetSessionAttr()` a valid group
attribute without children; and for every builder state (here `b2`) the
`GetSessionAttr()` of the context returned by `build()` is valid. -/
theorem build_sessionAttr_valid_empty_default {Stage Double : Type} [LT Double]
    [DecidableRel (fun a b : Double => a < b)] (Cache : Type)
    (b b2 : ArgsBuilder Stage Double) (h : b.sessionAttr.isValid = false) :
    (∃ c : PxrUsdKatanaUsdInArgs Stage Double Cache,
        b.build Cache = some c ∧ c.GetSessionAttr.isValid = true ∧
          c.GetSessionAttr.getNumberOfChildren = 0) ∧
    (∃ c : PxrUsdKatanaUsdInArgs Stage Double Cache,
        b2.build Cache = some c ∧ c.GetSessionAttr.isValid = true) := by
  refine ⟨⟨_, rfl, ?_, ?_⟩, ⟨_, rfl, ?_⟩⟩
  · show (if b.sessionAttr.isValid = true then b.sessionAttr
        else GroupAttribute.empty true).isValid = true
    rw [h]
    rfl
  · show (if b.sessionAttr.isValid = true then b.sessionAttr
        else GroupAttribute.empty true).getNumberOfChildren = 0
    rw [h]
    rfl
  · show (if b2.sessionAttr.isValid = true then b2.sessionAttr
        else GroupAttribute.empty true).isValid = true
    split
    · assumption
    · rfl

/-- Witness for C3: the default-constructed builder (no session attribute
staged), and a builder that stages the example attribute. -/
theorem build_sessionAttr_valid_empty_default_witness :
    (ArgsBuilder.ctor : ArgsBuilder Unit Int).sessionAttr.isValid = false ∧
      ((∃ c : PxrUsdKatanaUsdInArgs Unit Int Unit,
          (ArgsBuilder.ctor : ArgsBuilder Unit Int).build Unit = some c ∧
            c.GetSessionAttr.isValid = true ∧ c.GetSessionAttr.getNumberOfChildren = 0) ∧
      (∃ c : PxrUsdKatanaUsdInArgs Unit Int Unit,
          ({ (ArgsBuilder.ctor : ArgsBuilder Unit Int) with
              sessionAttr := exampleSessionAttr }).build Unit = some c ∧
            c.GetSessionAttr.isValid = true)) :=
  ⟨rfl, build_sessionAttr_valid_empty_default Unit ArgsBuilder.ctor
    { (ArgsBuilder.ctor : ArgsBuilder Unit Int) with sessionAttr := exampleSessionAttr } rfl⟩

/-- C4: for every valid session attribute `a`, the context made by `New` with
`a`, and the context made by `build()` from a builder that stages `a`, both
return from `GetSessionAttr()` a value equal to `a`. -/
theorem sessionAttr_round_trip {Stage Double Cache : Type} [LT Double]
    [DecidableRel (fun a b : Double => a < b)]
    (stage : UsdStageRefPtr Stage) (rootLocation isolatePath : String)
    (ignoreLayerRegex : String)
    (currentTime shutterOpen shutterClose : Double) (motionSampleTimes : List Double)
    (defaultMotionPaths : StringSet) (extraAttributesOrNamespaces : StringListMap)
    (verbose : Bool) (errorMessage : CharPtr) (b : ArgsBuilder Stage Double)
    (a : GroupAttribute) (h : a.isValid = true) :
    (∃ c : PxrUsdKatanaUsdInArgs Stage Double Cache,
        PxrUsdKatanaUsdInArgs.New stage rootLocation isolatePath a ignoreLayerRegex
          currentTime shutterOpen shutterClose motionSampleTimes defaultMotionPaths
          extraAttributesOrNamespaces verbose errorMessage = some c ∧
        c.GetSessionAttr = a) ∧
    (∃ c : PxrUsdKatanaUsdInArgs Stage Double Cache,
        ({ b with sessionAttr := a }).build Cache = some c ∧ c.GetSessionAttr = a) := by
  refine ⟨⟨_, rfl, rfl⟩, ⟨_, rfl, ?_⟩⟩
  show (if a.isValid = true then a else GroupAttribute.empty true) = a
  rw [if_pos h]

/-- Witness for C4: the example attribute with its `variants` and `activations`
groups. -/
theorem sessionAttr_round_trip_witness :
    exampleSessionAttr.isValid = true ∧
      ((∃ c : PxrUsdKatanaUsdInArgs Unit Int Unit,
          PxrUsdKatanaUsdInArgs.New none "/root/world" "" exampleSessionAttr ""
            (1 : Int) 0 0 [] ∅ ∅ false none = some c ∧
          c.GetSessionAttr = exampleSessionAttr) ∧
      (∃ c : PxrUsdKatanaUsdInArgs Unit Int Unit,
          ({ (ArgsBuilder.ctor : ArgsBuilder Unit Int) with
              sessionAttr := exampleSessionAttr }).build Unit = some c ∧
            c.GetSessionAttr = exampleSessionAttr)) :=
  ⟨rfl, sessionAttr_round_trip none "/root/world" "" "" (1 : Int) 0 0 [] ∅ ∅ false none
    ArgsBuilder.ctor exampleSessionAttr rfl⟩

/-! ## Builder -/

/-- C5: for every builder state `b`, the context returned by `b.build()` exposes
each staged value through the accessor of the same name: stage, root location,
isolate path, ignore-layer regex, current time, shutter open, shutter close,
motion sample times, default motion paths, extra attributes map and verbosity. -/
theorem build_exposes_staged_values {Stage Double : Type} [LT Double]
    [DecidableRel (fun a b : Double => a < b)] (Cache : Type)
    (b : ArgsBuilder Stage Double) :
    ∃ c : PxrUsdKatanaUsdInArgs Stage Double Cache,
      b.build Cache = some c ∧
      c.GetStage = b.stage ∧
      c.GetRootLocationPath = b.rootLocation ∧
      c.GetIsolatePath = b.isolatePath ∧
      c.GetIgnoreLayerRegex = b.ignoreLayerRegex ∧
      c.GetCurrentTime = b.currentTime ∧
      c.GetShutterOpen = b.shutterOpen ∧
      c.GetShutterClose = b.shutterClose ∧
      c.GetMotionSampleTimes = b.motionSampleTimes ∧
      c.GetDefaultMotionPaths = b.defaultMotionPaths ∧
      c.GetExtraAttributesOrNamespaces = b.extraAttributesOrNamespaces ∧
      c.IsVerbose = b.verbose :=
  ⟨_, rfl, rfl, rfl, rfl, rfl, rfl, rfl, rfl, rfl, rfl, rfl, rfl⟩

/-- C8: a default-constructed `ArgsBuilder` has current time, shutter open and
shutter close 0, `verbose` false, a null error message, empty root location,
isolate path and ignore-layer regex, no motion sample times, no default motion
paths, no extra attributes and an invalid session attribute. -/
theorem ArgsBuilder_default_values {Stage Double : Type} [Zero Double] :
    (ArgsBuilder.ctor : ArgsBuilder Stage Double).currentTime = 0 ∧
    (ArgsBuilder.ctor : ArgsBuilder Stage Double).shutterOpen = 0 ∧
    (ArgsBuilder.ctor : ArgsBuilder Stage Double).shutterClose = 0 ∧
    (ArgsBuilder.ctor : ArgsBuilder Stage Double).verbose = false ∧
    (ArgsBuilder.ctor : ArgsBuilder Stage Double).errorMessage = none ∧
    (ArgsBuilder.ctor : ArgsBuilder Stage Double).rootLocation = "" ∧
    (ArgsBuilder.ctor : ArgsBuilder Stage Double).isolatePath = "" ∧
    (ArgsBuilder.ctor : ArgsBuilder Stage Double).ignoreLayerRegex = "" ∧
    (ArgsBuilder.ctor : ArgsBuilder Stage Double).motionSampleTimes = [] ∧
    (ArgsBuilder.ctor : ArgsBuilder Stage Double).defaultMotionPaths = ∅ ∧
    (ArgsBuilder.ctor : ArgsBuilder Stage Double).extraAttributesOrNamespaces = ∅ ∧
    (ArgsBuilder.ctor : ArgsBuilder Stage Double).sessionAttr.isValid = false :=
  ⟨rfl, rfl, rfl, rfl, rfl, rfl, rfl, rfl, rfl, rfl, rfl, rfl⟩

/-! ## Bounds and immutability -/

/-- C9: after any sequence of calls of the public member functions (accessors,
`GetBBoxCache` with whatever is assigned through its reference, and
`ComputeBounds`), by any threads, every configuration field of the context has
the value it had before: only `_bboxCaches` may differ. -/
theorem configuration_unchanged_by_calls {Stage Double Cache Prim BBox : Type}
    (usd : BBoxCacheLibrary Double Cache Prim BBox)
    (self : PxrUsdKatanaUsdInArgs Stage Double Cache) (calls : List (Call Cache Prim)) :
    (self.afterCalls usd calls).GetStage = self.GetStage ∧
    (self.afterCalls usd calls).GetRootLocationPath = self.GetRootLocationPath ∧
    (self.afterCalls usd calls).GetIsolatePath = self.GetIsolatePath ∧
    (self.afterCalls usd calls).GetSessionAttr = self.GetSessionAttr ∧
    (self.afterCalls usd calls).GetIgnoreLayerRegex = self.GetIgnoreLayerRegex ∧
    (self.afterCalls usd calls).GetCurrentTime = self.GetCurrentTime ∧
    (self.afterCalls usd calls).GetShutterOpen = self.GetShutterOpen ∧
    (self.afterCalls usd calls).GetShutterClose = self.GetShutterClose ∧
    (self.afterCalls usd calls).GetMotionSampleTimes = self.GetMotionSampleTimes ∧
    (self.afterCalls usd calls).GetDefaultMotionPaths = self.GetDefaultMotionPaths ∧
    (self.afterCalls usd calls).IsMotionBackward = self.IsMotionBackward ∧
    (self.afterCalls usd calls).GetExtraAttributesOrNamespaces =
      self.GetExtraAttributesOrNamespaces ∧
    (self.afterCalls usd calls).IsVerbose = self.IsVerbose ∧
    (self.afterCalls usd calls).GetErrorMessage = self.GetErrorMessage := by
  obtain ⟨caches, h⟩ := afterCalls_eq_with_caches usd calls self
  rw [h]
  exact ⟨rfl, rfl, rfl, rfl, rfl, rfl, rfl, rfl, rfl, rfl, rfl, rfl, rfl, rfl⟩

end UsdKatana
